import Mathlib

/-!
Verification of pkg/registry/registry.go of the special-resource-operator:
the registry resolution and layer-extraction engine.  Pure logic of the Go
file is translated function by function; external collaborators (net/url
parsing, the cluster secret store, the crane transport, the encoding/json
decoders for each target shape, and runtime.GOARCH) are supplied through an
explicit environment, and Go panics are modelled by a dedicated outcome.
-/

namespace Registry

/-- JSON values as produced by Go encoding/json when decoding into an
untyped interface value: null, booleans, numbers, strings, arrays and
objects (an object is an association list keyed by field name; keys of a
decoded object are unique, so first-match lookup is Go map lookup). -/
inductive Json : Type where
  | null : Json
  | bool (b : Bool) : Json
  | num (n : Int) : Json
  | str (s : String) : Json
  | arr (elems : List Json) : Json
  | obj (fields : List (String × Json)) : Json

/-- Go map lookup over an association list. -/
def lookupKV {α : Type} : List (String × α) → String → Option α
  | [], _ => none
  | (k, v) :: rest, key => if k = key then some v else lookupKV rest key

/-- Object produced by json.Unmarshal into a map from string to interface,
the shape of unstructured.Unstructured.Object. -/
abbrev Jobj := List (String × Json)

def Json.isObj : Json → Bool
  | .obj _ => true
  | _ => false

def Json.isStr : Json → Bool
  | .str _ => true
  | _ => false

/-- Go interface equality of a possibly-absent map value against a string
constant (the comparison m[k] == "lit"): true exactly when the value is
present and is that string; every other dynamic type compares unequal. -/
def optJsonIsStr : Option Json → String → Bool
  | some (.str t), s => t == s
  | _, _ => false

/-- Accessor errors raised by the apimachinery unstructured helpers
(NestedFieldNoCopy, NestedString, NestedSlice); each carries the JSON
path its Go error message reports. -/
inductive AccErr : Type where
  | notMap (path : List String) : AccErr
  | notString (path : List String) : AccErr
  | notSlice (path : List String) : AccErr
deriving DecidableEq, Repr

/-- jsonPath helper of the unstructured package: a dot followed by the
fields joined by dots. -/
def jsonPath (fields : List String) : String :=
  "." ++ String.intercalate "." fields

/-- Error messages of the unstructured accessors (the dynamic value and
its Go type name, which the original message also interpolates, are not
tracked by the model). -/
def AccErr.message : AccErr → String
  | .notMap p => jsonPath p ++ " accessor error: expected map[string]interface"
  | .notString p => jsonPath p ++ " accessor error: expected string"
  | .notSlice p => jsonPath p ++ " accessor error: expected slice"

/-- Loop of unstructured.NestedFieldNoCopy: walk the field path through
nested JSON maps.  A nil value or a missing key yields found=false with a
nil error; a non-map intermediate value yields an accessor error carrying
the path walked so far (fields up to and including the offender). -/
def nestedGo : List String → List String → Json → Option Json × Bool × Option AccErr
  | [], _, val => (some val, true, none)
  | _ :: _, _, .null => (none, false, none)
  | f :: fs, seen, .obj m =>
    match lookupKV m f with
    | none => (none, false, none)
    | some v => nestedGo fs (seen ++ [f]) v
  | f :: _, seen, _ => (none, false, some (.notMap (seen ++ [f])))

/-- unstructured.NestedFieldNoCopy on a decoded object. -/
def NestedFieldNoCopy (m : Jobj) (fields : List String) : Option Json × Bool × Option AccErr :=
  nestedGo fields [] (.obj m)

/-- unstructured.NestedString: NestedFieldNoCopy followed by a string
type assertion; a non-string value yields found=false with an accessor
error naming the full path. -/
def NestedString (m : Jobj) (fields : List String) : String × Bool × Option AccErr :=
  match NestedFieldNoCopy m fields with
  | (val, found, err) =>
    if !found || err.isSome then ("", found, err)
    else
      match val with
      | some (.str s) => (s, true, none)
      | _ => ("", false, some (.notString fields))

/-- unstructured.NestedSlice: NestedFieldNoCopy followed by a slice type
assertion (the deep copy the original performs is the identity on
values). -/
def NestedSlice (m : Jobj) (fields : List String) : List Json × Bool × Option AccErr :=
  match NestedFieldNoCopy m fields with
  | (val, found, err) =>
    if !found || err.isSome then ([], found, err)
    else
      match val with
      | some (.arr xs) => (xs, true, none)
      | _ => ([], false, some (.notSlice fields))

/-- Errors returned by registry.go, one constructor per return-error
site, each carrying the data interpolated into the Go error message.
Failures of collaborators (Kubernetes client, crane transport,
encoding/json, gzip/tar) are carried as their message strings under
external and pullSecretsRetrieve. -/
inductive GoErr : Type where
  | parseImageUrl (image : String) : GoErr
  | pullSecretsRetrieve (inner : String) : GoErr
  | secretNoData : GoErr
  | authsUnmarshal : GoErr
  | noAuthForRegistry (host : String) : GoErr
  | invalidReference (image : String) : GoErr
  | external (msg : String) : GoErr
  | mediaTypeMissing (image : String) : GoErr
  | accessor (e : AccErr) : GoErr
  | archNotFound (arch : String) : GoErr
  | dtkField (field : String) (err : Option AccErr) (found : Bool) : GoErr
  | headerNotFound (name : String) : GoErr
  | dtkSpecTags (err : Option AccErr) (found : Bool) : GoErr
  | missingFromTag : GoErr
  | missingNameTag : GoErr
  | dtkEntryNotFound : GoErr
  | mocSpecTags (err : Option AccErr) (found : Bool) : GoErr
  | mocAnnMissing : GoErr
  | mocVersionsMissing : GoErr
  | mocEntryNotFound : GoErr
deriving DecidableEq, Repr

/-- Rendering of a bool under a format verb. -/
def fmtBool (b : Bool) : String := if b then "true" else "false"

/-- Rendering of a wrapped error under the %w verb; Go prints a special
marker for a nil error operand. -/
def fmtErrW : Option AccErr → String
  | none => "%!w(<nil>)"
  | some e => e.message

/-- The Go error message of each error, built from the format strings of
registry.go. -/
def GoErr.message : GoErr → String
  | .parseImageUrl image => "failed to parse image url: " ++ image
  | .pullSecretsRetrieve inner => "could not retrieve pull secrets, [" ++ inner ++ "]"
  | .secretNoData => "could not find data content in the secret"
  | .authsUnmarshal => "failed to unmarshal auths"
  | .noAuthForRegistry host => "cluster PullSecret does not contain auth for registry " ++ host
  | .invalidReference image => "image url " ++ image ++ " is not valid, does not contain hash or tag"
  | .external msg => msg
  | .mediaTypeMissing image => "mediaType is missing from the image " ++ image ++ " manifest"
  | .accessor e => e.message
  | .archNotFound arch => "Failed to find manifest for architecture " ++ arch
  | .dtkField field err found =>
      "failed to get " ++ field ++ " from etc/driver-toolkit-release.json: err "
        ++ fmtErrW err ++ ", found " ++ fmtBool found
  | .headerNotFound name => "header " ++ name ++ " not found in the layer"
  | .dtkSpecTags err found =>
      "failed to find spec/tag in the release-manifests/image-references: err "
        ++ fmtErrW err ++ ", found " ++ fmtBool found
  | .missingFromTag => "invalid image reference format for driver toolkit entry, missing `from` tag"
  | .missingNameTag => "invalid image reference format for driver toolkit entry, missing `name` tag"
  | .dtkEntryNotFound => "failed to find driver-toolkit in the release-manifests/image-references"
  | .mocSpecTags err found =>
      "failed to find spec/tags in release-manifests/image-references: error "
        ++ fmtErrW err ++ ", found " ++ fmtBool found
  | .mocAnnMissing => "invalid machine-os-content format, annotations tag"
  | .mocVersionsMissing => "invalid machine-os-content format, io.openshift.build.versions tag"
  | .mocEntryNotFound => "failed to find machine-os-content in the release-manifests/image-references"

/-- Result of a Go function that can also panic (unchecked slice index or
unchecked type assertion): normal return, error return, or runtime
panic. -/
inductive Outcome (α : Type) : Type where
  | ok (a : α) : Outcome α
  | err (e : GoErr) : Outcome α
  | panicked (msg : String) : Outcome α
deriving DecidableEq, Repr

/-- dockerAuth entry of the decoded pull-secret document. -/
structure DockerAuth where
  Auth : String
  Email : String
deriving DecidableEq, Repr

/-- Kubernetes secret as the engine reads it: its data map. -/
structure Secret where
  Data : List (String × String)
deriving DecidableEq, Repr

/-- Result of net/url parsing, reduced to the one field the code reads. -/
structure Url where
  Host : String
deriving DecidableEq, Repr

/-- crane.Option values attached to registry calls; the code only ever
attaches crane.WithAuth with Username taken from the Email field and Auth
from the Auth field of the resolved dockerAuth. -/
inductive CraneOpt : Type where
  | withAuth (username : String) (auth : String) : CraneOpt
deriving DecidableEq, Repr

/-- go-containerregistry v1.Hash: algorithm-qualified content hash. -/
structure Hash where
  Algorithm : String
  Hex : String
deriving DecidableEq, Repr

/-- go-containerregistry v1.Platform, reduced to the one field read. -/
structure Platform where
  Architecture : String
deriving DecidableEq, Repr

/-- go-containerregistry v1.Descriptor, reduced to the fields the code
reads: the content digest and the optional platform. -/
structure Descriptor where
  Digest : Hash
  Platform : Option Platform
deriving DecidableEq, Repr

/-- go-containerregistry v1.Manifest, reduced to its ordered layer
descriptor list. -/
structure Manifest where
  Layers : List Descriptor
deriving DecidableEq, Repr

/-- go-containerregistry v1.IndexManifest, reduced to its ordered
sub-manifest descriptor list. -/
structure IndexManifest where
  Manifests : List Descriptor
deriving DecidableEq, Repr

/-- Entry of a layer tar archive: recorded name and file content; the
content bytes are kept opaque and decoded only through the injected
json.Unmarshal collaborator. -/
structure TarEntry where
  name : String
  content : String
deriving DecidableEq, Repr

structure DriverToolkitEntry where
  ImageURL : String
  KernelFullVersion : String
  RTKernelFullVersion : String
  OSVersion : String
deriving DecidableEq, Repr

/-- Request issued to crane.PullLayer, the transport collaborator: the
composed reference and the credential options attached. -/
structure PullReq where
  ref : String
  opts : List CraneOpt
deriving DecidableEq, Repr

/-- External collaborators and process globals the engine is built on:
net/url parsing, the cluster secret store keyed by namespace and name,
the crane manifest transport, the encoding/json decoders for each target
shape, and runtime.GOARCH. -/
structure Env where
  urlParse : String → Except String Url
  getSecret : String → String → Except String Secret
  unmarshalAuths : String → Except String (List (String × DockerAuth))
  craneManifest : String → List CraneOpt → Except String String
  unmarshalJobj : String → Except String Jobj
  unmarshalManifest : String → Except String Manifest
  unmarshalIndex : String → Except String IndexManifest
  goarch : String

def pullSecretNamespace : String := "openshift-config"
def pullSecretName : String := "pull-secret"
def pullSecretFileName : String := ".dockerconfigjson"

/-- Prefix test on character lists, the position check of
strings.Contains. -/
def leadsWith : List Char → List Char → Bool
  | [], _ => true
  | _ :: _, [] => false
  | p :: ps, c :: cs => p == c && leadsWith ps cs

/-- Occurrence scan of strings.Contains: some position of the scanned
list starts with the pattern. -/
def listContains (pat : List Char) : List Char → Bool
  | [] => pat.isEmpty
  | c :: cs => leadsWith pat (c :: cs) || listContains pat cs

/-- strings.Contains. -/
def containsSubstr (s pat : String) : Bool :=
  listContains pat.data s.data

/-- Loop of strings.Split for a one-character separator: cut the list at
each occurrence of the separator, in order. -/
def splitCharAux (sep : Char) : List Char → List Char → List (List Char)
  | [], acc => [acc.reverse]
  | c :: cs, acc =>
    if c == sep then acc.reverse :: splitCharAux sep cs []
    else splitCharAux sep cs (c :: acc)

/-- strings.Split with a one-character separator (the two uses in the
code split on the at sign and on the colon). -/
def stringsSplit (s : String) (sep : Char) : List String :=
  (splitCharAux sep s.data []).map String.mk

/-- registryFromImageURL: url.Parse the image; on a parse error or an
empty host, retry with a leading double slash; fail when both attempts
yield no host. -/
def registryFromImageURL (urlParse : String → Except String Url) (image : String) : Except GoErr String :=
  let first := urlParse image
  let second :=
    match first with
    | .error _ => urlParse ("//" ++ image)
    | .ok u => if u.Host = "" then urlParse ("//" ++ image) else first
  match second with
  | .error _ => .error (.parseImageUrl image)
  | .ok u => if u.Host = "" then .error (.parseImageUrl image) else .ok u.Host

/-- getImageRegistryCredentials: read the cluster pull secret, take its
.dockerconfigjson data entry, decode the auths document and look up the
registry host; an absent host key is a hard error, distinct from a
present entry with an empty Auth string. -/
def getImageRegistryCredentials (env : Env) (registryHost : String) : Except GoErr DockerAuth :=
  match env.getSecret pullSecretNamespace pullSecretName with
  | .error e => .error (.pullSecretsRetrieve e)
  | .ok s =>
    match lookupKV s.Data pullSecretFileName with
    | none => .error .secretNoData
    | some pullSecretData =>
      match env.unmarshalAuths pullSecretData with
      | .error _ => .error .authsUnmarshal
      | .ok auths =>
        match lookupKV auths registryHost with
        | none => .error (.noAuthForRegistry registryHost)
        | some auth => .ok auth

/-- getHeaderFromLayer: scan the tar entries of the decompressed layer in
stream order; on the first entry whose recorded name equals headerName,
json.Unmarshal its content into an object and return it; when the entry
stream ends without a match, fail with the header-not-found error.  The
gzip/tar stream is modelled by its entry list; stream-open failures occur
before this loop is reached. -/
def getHeaderFromLayer (unmarshal : String → Except String Jobj) : List TarEntry → String → Except GoErr Jobj
  | [], headerName => .error (.headerNotFound headerName)
  | hEntry :: rest, headerName =>
    if hEntry.name = headerName then
      match unmarshal hEntry.content with
      | .error e => .error (.external e)
      | .ok o => .ok o
    else getHeaderFromLayer unmarshal rest headerName

/-- ExtractToolkitRelease: read etc/driver-toolkit-release.json from the
layer and project KERNEL_VERSION, RT_KERNEL_VERSION and RHEL_VERSION into
a fresh DriverToolkitEntry; each field must be found as a string.  The
ImageURL field of the fresh entry keeps its zero value. -/
def ExtractToolkitRelease (unmarshal : String → Except String Jobj) (layer : List TarEntry) : Except GoErr DriverToolkitEntry :=
  match getHeaderFromLayer unmarshal layer "etc/driver-toolkit-release.json" with
  | .error e => .error e
  | .ok obj =>
    match NestedString obj ["KERNEL_VERSION"] with
    | (kernelFullVersion, found1, err1) =>
      if !found1 || err1.isSome then .error (.dtkField "KERNEL_VERSION" err1 found1)
      else
        match NestedString obj ["RT_KERNEL_VERSION"] with
        | (rtKernelFullVersion, found2, err2) =>
          if !found2 || err2.isSome then .error (.dtkField "RT_KERNEL_VERSION" err2 found2)
          else
            match NestedString obj ["RHEL_VERSION"] with
            | (osVersion, found3, err3) =>
              if !found3 || err3.isSome then .error (.dtkField "RHEL_VERSION" err3 found3)
              else .ok { ImageURL := ""
                         KernelFullVersion := kernelFullVersion
                         RTKernelFullVersion := rtKernelFullVersion
                         OSVersion := osVersion }

/-- Loop of ReleaseManifests over spec.tags: each element is
type-asserted to a map with the unchecked one-value assertion (a
non-object element reached by the scan panics), matched by name
"driver-toolkit"; on match the from field must be present (checked), its
value is again asserted to a map unchecked, and its name field must be a
string (checked). -/
def scanTagsForDtk : List Json → Outcome String
  | [] => .err .dtkEntryNotFound
  | tag :: rest =>
    match tag with
    | .obj m =>
      if optJsonIsStr (lookupKV m "name") "driver-toolkit" then
        match lookupKV m "from" with
        | none => .err .missingFromTag
        | some fromVal =>
          match fromVal with
          | .obj fm =>
            match lookupKV fm "name" with
            | some (.str imageURL) => .ok imageURL
            | _ => .err .missingNameTag
          | _ => .panicked "interface conversion: value is not a map"
      else scanTagsForDtk rest
    | _ => .panicked "interface conversion: value is not a map"

/-- ReleaseManifests: read release-manifests/image-references from the
layer, take the spec.tags slice, and scan it for the driver-toolkit tag,
returning its from.name image URL. -/
def ReleaseManifests (unmarshal : String → Except String Jobj) (layer : List TarEntry) : Outcome String :=
  match getHeaderFromLayer unmarshal layer "release-manifests/image-references" with
  | .error e => .err e
  | .ok obj =>
    match NestedSlice obj ["spec", "tags"] with
    | (tags, found, err) =>
      if !found || err.isSome then .err (.dtkSpecTags err found)
      else scanTagsForDtk tags

/-- Loop of ReleaseImageMachineOSConfig over spec.tags: each element is
type-asserted to a map unchecked, matched by name "machine-os-content";
on match the annotations field must be present (checked), its value is
asserted to a map unchecked, and the io.openshift.build.versions entry
must be a string (checked). -/
def scanTagsForMoc : List Json → Outcome String
  | [] => .err .mocEntryNotFound
  | tag :: rest =>
    match tag with
    | .obj m =>
      if optJsonIsStr (lookupKV m "name") "machine-os-content" then
        match lookupKV m "annotations" with
        | none => .err .mocAnnMissing
        | some annVal =>
          match annVal with
          | .obj am =>
            match lookupKV am "io.openshift.build.versions" with
            | some (.str osVersion) => .ok osVersion
            | _ => .err .mocVersionsMissing
          | _ => .panicked "interface conversion: value is not a map"
      else scanTagsForMoc rest
    | _ => .panicked "interface conversion: value is not a map"

/-- ReleaseImageMachineOSConfig: read release-manifests/image-references
from the layer, take the spec.tags slice, and scan it for the
machine-os-content tag, returning its build-versions annotation. -/
def ReleaseImageMachineOSConfig (unmarshal : String → Except String Jobj) (layer : List TarEntry) : Outcome String :=
  match getHeaderFromLayer unmarshal layer "release-manifests/image-references" with
  | .error e => .err e
  | .ok obj =>
    match NestedSlice obj ["spec", "tags"] with
    | (tags, found, err) =>
      if !found || err.isSome then .err (.mocSpecTags err found)
      else scanTagsForMoc tags

/-- Condition of the selection loop in getImageDigestFromMultiImage: the
descriptor has a platform and its architecture equals the target. -/
def platformMatches (arch : String) (d : Descriptor) : Bool :=
  match d.Platform with
  | some p => p.Architecture == arch
  | none => false

/-- Selection loop of getImageDigestFromMultiImage: first descriptor
whose platform architecture equals the target yields its digest formatted
algorithm:hex; no match yields the architecture-not-found error. -/
def findManifestForArch (arch : String) : List Descriptor → Except GoErr String
  | [] => .error (.archNotFound arch)
  | m :: rest =>
    if platformMatches arch m then .ok (m.Digest.Algorithm ++ ":" ++ m.Digest.Hex)
    else findManifestForArch arch rest

/-- getImageDigestFromMultiImage: decode the stream as an index manifest
and select the sub-manifest digest for the process architecture. -/
def getImageDigestFromMultiImage (env : Env) (manifestListStream : String) : Except GoErr String :=
  match env.unmarshalIndex manifestListStream with
  | .error e => .error (.external e)
  | .ok manifestList => findManifestForArch env.goarch manifestList.Manifests

/-- getManifestStreamFromImage: fetch the manifest bytes for the image
reference, read its mediaType from the generic JSON decoding, and when
the mediaType marks a manifest list, select the digest for the process
architecture and re-fetch the manifest at repo@digest. -/
def getManifestStreamFromImage (env : Env) (image repo : String) (options : List CraneOpt) : Except GoErr String :=
  match env.craneManifest image options with
  | .error e => .error (.external e)
  | .ok manifest =>
    match env.unmarshalJobj manifest with
    | .error e => .error (.external e)
    | .ok relObj =>
      match NestedString relObj ["mediaType"] with
      | (imageMediaType, mediaTypeFound, err) =>
        match err with
        | some e => .error (.accessor e)
        | none =>
          if !mediaTypeFound then .error (.mediaTypeMissing image)
          else
            if containsSubstr imageMediaType "manifest.list" then
              match getImageDigestFromMultiImage env manifest with
              | .error e => .error e
              | .ok archDigest =>
                match env.craneManifest (repo ++ "@" ++ archDigest) options with
                | .error e => .error (.external e)
                | .ok m2 => .ok m2
            else .ok manifest

/-- getLayersDigestsFromManifestStream: decode the stream as a
single-platform manifest and format each layer digest algorithm:hex,
preserving the layer order. -/
def getLayersDigestsFromManifestStream (env : Env) (manifestStream : String) : Except GoErr (List String) :=
  match env.unmarshalManifest manifestStream with
  | .error e => .error (.external e)
  | .ok manifest => .ok (manifest.Layers.map fun l => l.Digest.Algorithm ++ ":" ++ l.Digest.Hex)

/-- Repository derivation of GetLayersDigests: the prefix before an at
sign when one occurs, otherwise the prefix before a colon when one
occurs, otherwise the empty string (repo keeps its zero value when
neither split produces more than one part). -/
def repoFromImage (image : String) : String :=
  let hash := stringsSplit image '@'
  let tag := stringsSplit image ':'
  if 1 < hash.length then hash.headD ""
  else if 1 < tag.length then tag.headD "" else ""

/-- Credential options of GetLayersDigests: a single crane.WithAuth
option when the resolved Auth string is nonempty, otherwise none
(anonymous access). -/
def authOpts (auth : DockerAuth) : List CraneOpt :=
  if auth.Auth ≠ "" then [.withAuth auth.Email auth.Auth] else []

/-- GetLayersDigests: derive the registry host, resolve credentials,
derive the repository name as the prefix before an at sign or otherwise
before a colon (failing when neither separator occurs), attach an auth
option only for a nonempty Auth string, resolve the manifest and derive
its layer digests. -/
def GetLayersDigests (env : Env) (image : String) : Except GoErr (String × List String × List CraneOpt) :=
  match registryFromImageURL env.urlParse image with
  | .error e => .error e
  | .ok registryHost =>
    match getImageRegistryCredentials env registryHost with
    | .error e => .error e
    | .ok auth =>
      let repo := repoFromImage image
      if repo = "" then .error (.invalidReference image)
      else
        let registryAuths : List CraneOpt := authOpts auth
        match getManifestStreamFromImage env image repo registryAuths with
        | .error e => .error e
        | .ok manifest =>
          match getLayersDigestsFromManifestStream env manifest with
          | .error e => .error e
          | .ok digests => .ok (repo, digests, registryAuths)

/-- GetLayerByDigest: pure delegation to crane.PullLayer at the composed
reference repo@digest; the model returns the request it issues. -/
def GetLayerByDigest (repo digest : String) (auth : List CraneOpt) : PullReq :=
  { ref := repo ++ "@" ++ digest, opts := auth }

/-- LastLayer: run the full resolver, then pull the layer of the last
digest; the unchecked slice index on the digest list panics when the
resolved digest list is empty.  crane.PullLayer is transport, so the
model returns the request it issues. -/
def LastLayer (env : Env) (image : String) : Outcome PullReq :=
  match GetLayersDigests env image with
  | .error e => .err e
  | .ok (repo, digests, registryAuths) =>
    match digests.getLast? with
    | none => .panicked "runtime error: index out of range"
    | some d => .ok { ref := repo ++ "@" ++ d, opts := registryAuths }

/-- json.Unmarshal result as getHeaderFromLayer returns it for the
matching entry: decode errors surface as-is, a decoded object is the
result. -/
def liftUnmarshal : Except String Jobj → Except GoErr Jobj
  | .error e => .error (.external e)
  | .ok o => .ok o

/-! Concrete collaborator instances used by the witnesses: a layer whose
driver-toolkit release file carries all fields (and even an image URL), a
layer whose release file lacks the realtime kernel field, and layers
whose image-references file has tag lists with non-object elements. -/

def objA : Jobj :=
  [("KERNEL_VERSION", .str "5.14.0-284"), ("RT_KERNEL_VERSION", .str "5.14.0-284.rt"),
   ("RHEL_VERSION", .str "9.2"), ("imageURL", .str "quay.io/dtk-img")]

def layerA : List TarEntry := [{ name := "etc/driver-toolkit-release.json", content := "dtkA" }]

def uA : String → Except String Jobj :=
  fun s => if s = "dtkA" then .ok objA else .error "unexpected content"

def objB : Jobj := [("KERNEL_VERSION", .str "5.14.0"), ("RHEL_VERSION", .str "9.2")]

def layerB : List TarEntry := [{ name := "etc/driver-toolkit-release.json", content := "dtkB" }]

def uB : String → Except String Jobj :=
  fun s => if s = "dtkB" then .ok objB else .error "unexpected content"

def u2 : String → Except String Jobj :=
  fun s => if s = "payloadT" then .ok [("k", .str "v")] else .error "bad json"

/-! Concrete environment for the resolver witnesses. -/

def descArm : Descriptor :=
  { Digest := { Algorithm := "sha256", Hex := "armd" }, Platform := some { Architecture := "arm64" } }

def descAmd : Descriptor :=
  { Digest := { Algorithm := "sha256", Hex := "amd" }, Platform := some { Architecture := "amd64" } }

def idxC : IndexManifest := { Manifests := [descArm, descAmd] }

def envC : Env :=
  { urlParse := fun _ => .ok { Host := "reg.io" }
    getSecret := fun _ _ => .ok { Data := [(".dockerconfigjson", "SEC")] }
    unmarshalAuths := fun s =>
      if s = "SEC" then .ok [("reg.io", { Auth := "", Email := "e@x.com" })] else .error "bad auths"
    craneManifest := fun ref _ =>
      if ref = "reg.io/a:1" then .ok "m0"
      else if ref = "reg.io/b:2" then .ok "m1"
      else if ref = "reg.io/c:3" then .ok "m3"
      else if ref = "reg.io/d:4" then .ok "idx"
      else if ref = "reg.io/d@sha256:amd" then .ok "m1"
      else .error "manifest unknown"
    unmarshalJobj := fun s =>
      if s = "idx" then
        .ok [("mediaType", .str "application/vnd.docker.distribution.manifest.list.v2+json")]
      else if s = "m0" || s = "m1" || s = "m3" then
        .ok [("mediaType", .str "application/vnd.docker.distribution.manifest.v2+json")]
      else .error "bad json"
    unmarshalManifest := fun s =>
      if s = "m0" then .ok { Layers := [] }
      else if s = "m1" then
        .ok { Layers := [{ Digest := { Algorithm := "sha256", Hex := "aaa" }, Platform := none }] }
      else if s = "m3" then
        .ok { Layers :=
          [{ Digest := { Algorithm := "sha256", Hex := "l0" }, Platform := none },
           { Digest := { Algorithm := "sha256", Hex := "l1" }, Platform := none },
           { Digest := { Algorithm := "sha256", Hex := "l2" }, Platform := none }] }
      else .error "bad manifest"
    unmarshalIndex := fun s => if s = "idx" then .ok idxC else .error "bad index"
    goarch := "amd64" }

/-- Classifier for the invalid-reference error, used to state that a
failure is not that error. -/
def isInvalidRefErr : GoErr → Bool
  | .invalidReference _ => true
  | _ => false

def envW : Env :=
  { envC with
    getSecret := fun _ _ => .ok { Data := [(".dockerconfigjson", "SECW")] }
    unmarshalAuths := fun s =>
      if s = "SECW" then .ok [("reg.io", { Auth := "abc", Email := "e@x.com" })]
      else .error "bad auths" }

def dtkTagC : Json :=
  .obj [("name", .str "driver-toolkit"), ("from", .obj [("name", .str "reg.io/dtk:v1")])]

def objC : Jobj := [("spec", .obj [("tags", .arr [dtkTagC, .str "oops"])])]

def layerC : List TarEntry :=
  [{ name := "release-manifests/image-references", content := "relC" }]

def uC : String → Except String Jobj :=
  fun s => if s = "relC" then .ok objC else .error "unexpected content"

def objD : Jobj := [("spec", .obj [("tags", .arr [.str "oops"])])]

def layerD : List TarEntry :=
  [{ name := "release-manifests/image-references", content := "relD" }]

def uD : String → Except String Jobj :=
  fun s => if s = "relD" then .ok objD else .error "unexpected content"

/-! Helper lemmas about the unstructured accessors on single-field paths. -/

theorem NestedString_single_str (m : Jobj) (k s : String)
    (h : lookupKV m k = some (.str s)) : NestedString m [k] = (s, true, none) := by
  simp [NestedString, NestedFieldNoCopy, nestedGo, h]

theorem NestedString_single_none (m : Jobj) (k : String)
    (h : lookupKV m k = none) : NestedString m [k] = ("", false, none) := by
  simp [NestedString, NestedFieldNoCopy, nestedGo, h]

theorem NestedString_single_nonstr (m : Jobj) (k : String) (v : Json)
    (h : lookupKV m k = some v) (hv : v.isStr = false) :
    NestedString m [k] = ("", false, some (.notString [k])) := by
  cases v <;> simp_all [NestedString, NestedFieldNoCopy, nestedGo, Json.isStr]

/-- C1.  The claim asserts that for a layer whose release file carries the
three string fields, ExtractToolkitRelease returns an entry with every
projected field populated, the image URL included.  The code never
assigns the ImageURL field: on a layer whose release file carries all
three fields and an image URL besides, the returned entry has an empty
ImageURL, so the claim fails as stated. -/
theorem c1_extractToolkitRelease_imageURL_empty :
    ExtractToolkitRelease uA layerA
      = .ok { ImageURL := "", KernelFullVersion := "5.14.0-284",
              RTKernelFullVersion := "5.14.0-284.rt", OSVersion := "9.2" }
    ∧ lookupKV objA "imageURL" = some (.str "quay.io/dtk-img")
    ∧ ({ ImageURL := "", KernelFullVersion := "5.14.0-284",
         RTKernelFullVersion := "5.14.0-284.rt", OSVersion := "9.2" } : DriverToolkitEntry).ImageURL
        = "" := by
  refine ⟨by rfl, by rfl, rfl⟩

/-- C1 (amended).  For every layer whose etc/driver-toolkit-release.json
decodes to an object with string fields KERNEL_VERSION, RT_KERNEL_VERSION
and RHEL_VERSION, ExtractToolkitRelease succeeds and the returned entry
carries exactly those three strings in its kernel, realtime-kernel and OS
version fields, while its ImageURL field is the empty string: the three
projected version fields are fully populated or the call errors, and the
image URL is never populated by this projector. -/
theorem c1_extractToolkitRelease_projects_all_versions
    (u : String → Except String Jobj) (layer : List TarEntry)
    (obj : Jobj) (k rt os : String)
    (hget : getHeaderFromLayer u layer "etc/driver-toolkit-release.json" = .ok obj)
    (hk : lookupKV obj "KERNEL_VERSION" = some (.str k))
    (hrt : lookupKV obj "RT_KERNEL_VERSION" = some (.str rt))
    (hos : lookupKV obj "RHEL_VERSION" = some (.str os)) :
    ExtractToolkitRelease u layer
      = .ok { ImageURL := "", KernelFullVersion := k,
              RTKernelFullVersion := rt, OSVersion := os } := by
  simp [ExtractToolkitRelease, hget, NestedString_single_str _ _ _ hk,
    NestedString_single_str _ _ _ hrt, NestedString_single_str _ _ _ hos]

/-- C1 witness: the amended theorem applied to the concrete layer. -/
theorem c1_witness :
    ExtractToolkitRelease uA layerA
      = .ok { ImageURL := "", KernelFullVersion := "5.14.0-284",
              RTKernelFullVersion := "5.14.0-284.rt", OSVersion := "9.2" } :=
  c1_extractToolkitRelease_projects_all_versions uA layerA objA
    "5.14.0-284" "5.14.0-284.rt" "9.2" rfl rfl rfl rfl

/-- C7.  A release file lacking one of the expected fields makes
ExtractToolkitRelease fail with an error naming exactly that field: a
missing KERNEL_VERSION is reported first; with KERNEL_VERSION present as
a string, a missing (or non-string) RT_KERNEL_VERSION is reported; with
both present as strings, a missing RHEL_VERSION is reported; and the
rendered message for the realtime case names RT_KERNEL_VERSION. -/
theorem c7_extractToolkitRelease_missing_field
    (u : String → Except String Jobj) (layer : List TarEntry) (obj : Jobj)
    (hget : getHeaderFromLayer u layer "etc/driver-toolkit-release.json" = .ok obj) :
    (lookupKV obj "KERNEL_VERSION" = none →
      ExtractToolkitRelease u layer = .error (.dtkField "KERNEL_VERSION" none false))
    ∧ (∀ k, lookupKV obj "KERNEL_VERSION" = some (.str k) →
        lookupKV obj "RT_KERNEL_VERSION" = none →
        ExtractToolkitRelease u layer = .error (.dtkField "RT_KERNEL_VERSION" none false))
    ∧ (∀ k v, lookupKV obj "KERNEL_VERSION" = some (.str k) →
        lookupKV obj "RT_KERNEL_VERSION" = some v → v.isStr = false →
        ExtractToolkitRelease u layer
          = .error (.dtkField "RT_KERNEL_VERSION" (some (.notString ["RT_KERNEL_VERSION"])) false))
    ∧ (∀ k rt, lookupKV obj "KERNEL_VERSION" = some (.str k) →
        lookupKV obj "RT_KERNEL_VERSION" = some (.str rt) →
        lookupKV obj "RHEL_VERSION" = none →
        ExtractToolkitRelease u layer = .error (.dtkField "RHEL_VERSION" none false))
    ∧ (GoErr.dtkField "RT_KERNEL_VERSION" none false).message
        = "failed to get RT_KERNEL_VERSION from etc/driver-toolkit-release.json: err %!w(<nil>), found false" := by
  refine ⟨?_, ?_, ?_, ?_, rfl⟩
  · intro h
    simp [ExtractToolkitRelease, hget, NestedString_single_none _ _ h]
  · intro k hk h
    simp [ExtractToolkitRelease, hget, NestedString_single_str _ _ _ hk,
      NestedString_single_none _ _ h]
  · intro k v hk hv hvs
    simp [ExtractToolkitRelease, hget, NestedString_single_str _ _ _ hk,
      NestedString_single_nonstr _ _ _ hv hvs]
  · intro k rt hk hrt h
    simp [ExtractToolkitRelease, hget, NestedString_single_str _ _ _ hk,
      NestedString_single_str _ _ _ hrt, NestedString_single_none _ _ h]

/-- C7 witness: on the concrete layer whose release file has only
KERNEL_VERSION and RHEL_VERSION, extraction fails naming
RT_KERNEL_VERSION. -/
theorem c7_witness :
    ExtractToolkitRelease uB layerB = .error (.dtkField "RT_KERNEL_VERSION" none false) :=
  (c7_extractToolkitRelease_missing_field uB layerB objB rfl).2.1 "5.14.0" rfl rfl

theorem getHeaderFromLayer_match (u : String → Except String Jobj) (target : String)
    (pre : List TarEntry) (e : TarEntry) (post : List TarEntry)
    (hpre : ∀ x ∈ pre, x.name ≠ target) (he : e.name = target) :
    getHeaderFromLayer u (pre ++ e :: post) target = liftUnmarshal (u e.content) := by
  induction pre with
  | nil =>
    simp only [List.nil_append, getHeaderFromLayer, he, if_pos rfl]
    cases u e.content <;> rfl
  | cons x xs ih =>
    have hx : ¬ x.name = target := hpre x (by simp)
    simp only [List.cons_append, getHeaderFromLayer, if_neg hx]
    exact ih fun y hy => hpre y (by simp [hy])

theorem getHeaderFromLayer_not_found (u : String → Except String Jobj) (target : String)
    (entries : List TarEntry) (h : ∀ x ∈ entries, x.name ≠ target) :
    getHeaderFromLayer u entries target = .error (.headerNotFound target) := by
  induction entries with
  | nil => rfl
  | cons x xs ih =>
    have hx : ¬ x.name = target := h x (by simp)
    simp only [getHeaderFromLayer, if_neg hx]
    exact ih fun y hy => h y (by simp [hy])

/-- C2.  The layer file extractor scans tar entries in stream order: on
the first entry whose recorded name equals the target path it returns the
JSON decoding of that entry content, and the result does not depend on
the entries after the match; when the stream is exhausted without an
exact match it fails with the header-not-found error, whose message reads
"header ... not found in the layer". -/
theorem c2_getHeaderFromLayer_stream_scan
    (u : String → Except String Jobj) (target : String)
    (pre : List TarEntry) (e : TarEntry) (post post' : List TarEntry)
    (entries : List TarEntry)
    (hpre : ∀ x ∈ pre, x.name ≠ target) (he : e.name = target)
    (hnone : ∀ x ∈ entries, x.name ≠ target) :
    getHeaderFromLayer u (pre ++ e :: post) target = liftUnmarshal (u e.content)
    ∧ getHeaderFromLayer u (pre ++ e :: post) target
        = getHeaderFromLayer u (pre ++ e :: post') target
    ∧ getHeaderFromLayer u entries target = .error (.headerNotFound target)
    ∧ (GoErr.headerNotFound target).message
        = "header " ++ target ++ " not found in the layer" := by
  refine ⟨getHeaderFromLayer_match u target pre e post hpre he, ?_,
    getHeaderFromLayer_not_found u target entries hnone, rfl⟩
  rw [getHeaderFromLayer_match u target pre e post hpre he,
    getHeaderFromLayer_match u target pre e post' hpre he]

/-- C2 witness: a three-entry archive whose middle entry matches returns
that entry's decoded content, and a no-match archive yields the
header-not-found error with its message. -/
theorem c2_witness :
    getHeaderFromLayer u2
        [{ name := "a/b.json", content := "x" }, { name := "etc/t.json", content := "payloadT" },
         { name := "c.txt", content := "y" }] "etc/t.json" = .ok [("k", .str "v")]
    ∧ getHeaderFromLayer u2 [{ name := "a/b.json", content := "x" }] "etc/t.json"
        = .error (.headerNotFound "etc/t.json")
    ∧ (GoErr.headerNotFound "etc/t.json").message = "header etc/t.json not found in the layer" := by
  have h := c2_getHeaderFromLayer_stream_scan u2 "etc/t.json"
    [{ name := "a/b.json", content := "x" }] { name := "etc/t.json", content := "payloadT" }
    [{ name := "c.txt", content := "y" }] [] [{ name := "a/b.json", content := "x" }]
    (by decide) rfl (by decide)
  exact ⟨h.1, h.2.2.1, h.2.2.2⟩

/-- C3.  A single-platform manifest with layers L0, L1, L2 yields the
digest list in original order, each digest formatted algorithm:hex; and
whenever the resolver yields exactly that digest list, LastLayer issues a
pull for the final digest at reference repository@d(L2) with the resolved
credential options. -/
theorem c3_digest_order_and_last_layer
    (env : Env) (stream : String) (m : Manifest) (L0 L1 L2 : Descriptor)
    (hm : env.unmarshalManifest stream = .ok m) (hl : m.Layers = [L0, L1, L2]) :
    getLayersDigestsFromManifestStream env stream
      = .ok [L0.Digest.Algorithm ++ ":" ++ L0.Digest.Hex,
             L1.Digest.Algorithm ++ ":" ++ L1.Digest.Hex,
             L2.Digest.Algorithm ++ ":" ++ L2.Digest.Hex]
    ∧ (∀ image repo opts, GetLayersDigests env image
          = .ok (repo, [L0.Digest.Algorithm ++ ":" ++ L0.Digest.Hex,
                        L1.Digest.Algorithm ++ ":" ++ L1.Digest.Hex,
                        L2.Digest.Algorithm ++ ":" ++ L2.Digest.Hex], opts) →
        LastLayer env image
          = .ok { ref := repo ++ "@" ++ (L2.Digest.Algorithm ++ ":" ++ L2.Digest.Hex),
                  opts := opts }) := by
  constructor
  · simp [getLayersDigestsFromManifestStream, hm, hl]
  · intro image repo opts h
    simp [LastLayer, h, List.getLast?]

/-- C3 witness: the concrete three-layer manifest yields its digests in
order and LastLayer pulls the last one. -/
theorem c3_witness :
    getLayersDigestsFromManifestStream envC "m3" = .ok ["sha256:l0", "sha256:l1", "sha256:l2"]
    ∧ LastLayer envC "reg.io/c:3" = .ok { ref := "reg.io/c@sha256:l2", opts := [] } := by
  have h := c3_digest_order_and_last_layer envC "m3"
    { Layers :=
        [{ Digest := { Algorithm := "sha256", Hex := "l0" }, Platform := none },
         { Digest := { Algorithm := "sha256", Hex := "l1" }, Platform := none },
         { Digest := { Algorithm := "sha256", Hex := "l2" }, Platform := none }] }
    { Digest := { Algorithm := "sha256", Hex := "l0" }, Platform := none }
    { Digest := { Algorithm := "sha256", Hex := "l1" }, Platform := none }
    { Digest := { Algorithm := "sha256", Hex := "l2" }, Platform := none }
    rfl rfl
  exact ⟨h.1, h.2 "reg.io/c:3" "reg.io/c" [] (by rfl)⟩

theorem findManifestForArch_first (arch : String) (pre : List Descriptor) (d : Descriptor)
    (post : List Descriptor) (hpre : ∀ x ∈ pre, platformMatches arch x = false)
    (hd : platformMatches arch d = true) :
    findManifestForArch arch (pre ++ d :: post)
      = .ok (d.Digest.Algorithm ++ ":" ++ d.Digest.Hex) := by
  induction pre with
  | nil => simp [findManifestForArch, hd]
  | cons x xs ih =>
    have hx := hpre x (by simp)
    simp only [List.cons_append, findManifestForArch, hx, Bool.false_eq_true, if_false]
    exact ih fun y hy => hpre y (by simp [hy])

theorem findManifestForArch_no_match (arch : String) (l : List Descriptor)
    (h : ∀ x ∈ l, platformMatches arch x = false) :
    findManifestForArch arch l = .error (.archNotFound arch) := by
  induction l with
  | nil => rfl
  | cons x xs ih =>
    have hx := h x (by simp)
    simp only [findManifestForArch, hx, Bool.false_eq_true, if_false]
    exact ih fun y hy => h y (by simp [hy])

/-- C4.  When the fetched manifest's mediaType marks a manifest list, the
resolver selects the first index entry whose platform architecture equals
the process architecture and re-fetches the manifest at that entry's
repository@digest reference; when no entry's platform matches, it fails
with the architecture-not-found error naming that architecture. -/
theorem c4_manifest_list_architecture_selection
    (env : Env) (image repo : String) (options : List CraneOpt)
    (stream : String) (relObj : Jobj) (mt : String) (idx : IndexManifest)
    (hfetch : env.craneManifest image options = .ok stream)
    (hjson : env.unmarshalJobj stream = .ok relObj)
    (hmt : lookupKV relObj "mediaType" = some (.str mt))
    (hlist : containsSubstr mt "manifest.list" = true)
    (hidx : env.unmarshalIndex stream = .ok idx) :
    (∀ pre d post p m2, idx.Manifests = pre ++ d :: post →
        (∀ x ∈ pre, platformMatches env.goarch x = false) →
        d.Platform = some p → p.Architecture = env.goarch →
        env.craneManifest (repo ++ "@" ++ (d.Digest.Algorithm ++ ":" ++ d.Digest.Hex)) options
          = .ok m2 →
        getManifestStreamFromImage env image repo options = .ok m2)
    ∧ ((∀ x ∈ idx.Manifests, platformMatches env.goarch x = false) →
        getManifestStreamFromImage env image repo options = .error (.archNotFound env.goarch)
        ∧ (GoErr.archNotFound env.goarch).message
            = "Failed to find manifest for architecture " ++ env.goarch) := by
  constructor
  · intro pre d post p m2 hsplit hpre hp hparch hrefetch
    have hd : platformMatches env.goarch d = true := by
      simp [platformMatches, hp, hparch]
    simp [getManifestStreamFromImage, hfetch, hjson, NestedString_single_str _ _ _ hmt,
      hlist, getImageDigestFromMultiImage, hidx, hsplit,
      findManifestForArch_first env.goarch pre d post hpre hd, hrefetch]
  · intro hnone
    refine ⟨?_, rfl⟩
    simp [getManifestStreamFromImage, hfetch, hjson, NestedString_single_str _ _ _ hmt,
      hlist, getImageDigestFromMultiImage, hidx,
      findManifestForArch_no_match env.goarch idx.Manifests hnone]

/-- C4 witness: the concrete index with arm64 then amd64 entries resolves
on an amd64 process to the amd64 digest and re-fetches at repo@digest;
the same index on a s390x process fails naming s390x. -/
theorem c4_witness :
    getManifestStreamFromImage envC "reg.io/d:4" "reg.io/d" [] = .ok "m1"
    ∧ getManifestStreamFromImage { envC with goarch := "s390x" } "reg.io/d:4" "reg.io/d" []
        = .error (.archNotFound "s390x") := by
  have h1 := c4_manifest_list_architecture_selection envC "reg.io/d:4" "reg.io/d" [] "idx"
    [("mediaType", .str "application/vnd.docker.distribution.manifest.list.v2+json")]
    "application/vnd.docker.distribution.manifest.list.v2+json" idxC
    rfl rfl rfl (by rfl) rfl
  have h2 := c4_manifest_list_architecture_selection { envC with goarch := "s390x" }
    "reg.io/d:4" "reg.io/d" [] "idx"
    [("mediaType", .str "application/vnd.docker.distribution.manifest.list.v2+json")]
    "application/vnd.docker.distribution.manifest.list.v2+json" idxC
    rfl rfl rfl (by rfl) rfl
  refine ⟨h1.1 [descArm] descAmd [] { Architecture := "amd64" } "m1" rfl (by decide) rfl rfl rfl,
    (h2.2 (by decide)).1⟩

theorem splitCharAux_no_sep (sep : Char) (l : List Char)
    (h : listContains [sep] l = false) :
    ∀ acc, splitCharAux sep l acc = [acc.reverse ++ l] := by
  induction l with
  | nil => intro acc; simp [splitCharAux]
  | cons c cs ih =>
    intro acc
    simp only [listContains, leadsWith, Bool.or_eq_false_iff, Bool.and_eq_false_iff] at h
    have hne : ¬ c == sep := by
      rcases h.1 with h1 | h1
      · intro hc
        rw [Bool.beq_comm] at hc
        simp [hc] at h1
      · simp at h1
    simp only [splitCharAux, hne, if_false, Bool.false_eq_true]
    rw [ih h.2 (c :: acc)]
    simp

theorem stringsSplit_no_sep (s : String) (sep : Char)
    (h : listContains [sep] s.data = false) :
    stringsSplit s sep = [s] := by
  unfold stringsSplit
  rw [splitCharAux_no_sep sep s.data h []]
  rfl

/-- C6.  An image reference containing neither an at sign nor a colon is
rejected by GetLayersDigests with the invalid-reference error whose
message reads "does not contain hash or tag", provided the registry-host
parsing and the credential resolution performed before the check
succeed. -/
theorem c6_no_separator_invalid_reference
    (env : Env) (image host : String) (auth : DockerAuth)
    (hat : containsSubstr image "@" = false)
    (hcol : containsSubstr image ":" = false)
    (hreg : registryFromImageURL env.urlParse image = .ok host)
    (hcred : getImageRegistryCredentials env host = .ok auth) :
    GetLayersDigests env image = .error (.invalidReference image)
    ∧ (GoErr.invalidReference image).message
        = "image url " ++ image ++ " is not valid, does not contain hash or tag" := by
  refine ⟨?_, rfl⟩
  have h1 : stringsSplit image '@' = [image] := stringsSplit_no_sep image '@' hat
  have h2 : stringsSplit image ':' = [image] := stringsSplit_no_sep image ':' hcol
  simp [GetLayersDigests, repoFromImage, hreg, hcred, h1, h2]

/-- C6 witness: a reference with no tag and no digest separator fails
with the invalid-reference error under the concrete environment. -/
theorem c6_witness :
    GetLayersDigests envC "reg.io/norepo" = .error (.invalidReference "reg.io/norepo")
    ∧ (GoErr.invalidReference "reg.io/norepo").message
        = "image url reg.io/norepo is not valid, does not contain hash or tag" :=
  c6_no_separator_invalid_reference envC "reg.io/norepo" "reg.io"
    { Auth := "", Email := "e@x.com" } (by rfl) (by rfl) rfl rfl

/-- C8.  LastLayer is partial in its digest list: when the resolver
succeeds with an empty digest list the unchecked index panics instead of
returning an error, and when the list is nonempty LastLayer returns the
pull request for the last digest. -/
theorem c8_lastLayer_empty_digest_panic :
    (∀ env image repo opts, GetLayersDigests env image = .ok (repo, [], opts) →
        LastLayer env image = .panicked "runtime error: index out of range")
    ∧ (∀ env image repo ds d opts, GetLayersDigests env image = .ok (repo, ds, opts) →
        ds.getLast? = some d →
        LastLayer env image = .ok { ref := repo ++ "@" ++ d, opts := opts }) := by
  constructor
  · intro env image repo opts h
    simp [LastLayer, h]
  · intro env image repo ds d opts h hd
    simp [LastLayer, h, hd]

/-- C8 witness: an image resolving to a zero-layer manifest makes
LastLayer panic, and one resolving to a one-layer manifest returns the
pull request for that digest. -/
theorem c8_witness :
    LastLayer envC "reg.io/a:1" = .panicked "runtime error: index out of range"
    ∧ LastLayer envC "reg.io/b:2" = .ok { ref := "reg.io/b@sha256:aaa", opts := [] } := by
  refine ⟨c8_lastLayer_empty_digest_panic.1 envC "reg.io/a:1" "reg.io/a" [] (by rfl), ?_⟩
  exact c8_lastLayer_empty_digest_panic.2 envC "reg.io/b:2" "reg.io/b"
    ["sha256:aaa"] "sha256:aaa" [] (by rfl) rfl

theorem registryFromImageURL_error_inv (up : String → Except String Url) (img : String)
    (e : GoErr) (h : registryFromImageURL up img = .error e) : e = .parseImageUrl img := by
  simp only [registryFromImageURL] at h
  repeat' split at h
  all_goals first
    | (injection h with h; subst h; rfl)
    | injection h

theorem getImageRegistryCredentials_error_inv (env : Env) (host : String) (e : GoErr)
    (h : getImageRegistryCredentials env host = .error e) : isInvalidRefErr e = false := by
  simp only [getImageRegistryCredentials] at h
  repeat' split at h
  all_goals first
    | (injection h with h; subst h; rfl)
    | injection h

theorem findManifestForArch_error_inv (arch : String) (l : List Descriptor) (e : GoErr)
    (h : findManifestForArch arch l = .error e) : e = .archNotFound arch := by
  induction l with
  | nil => simp_all [findManifestForArch]
  | cons x xs ih =>
    simp only [findManifestForArch] at h
    split at h
    · simp_all
    · exact ih h

theorem getImageDigestFromMultiImage_error_inv (env : Env) (stream : String) (e : GoErr)
    (h : getImageDigestFromMultiImage env stream = .error e) : isInvalidRefErr e = false := by
  unfold getImageDigestFromMultiImage at h
  rcases h1 : env.unmarshalIndex stream with e1 | ml <;> simp only [h1] at h
  · simp only [Except.error.injEq] at h
    subst h; rfl
  · rw [findManifestForArch_error_inv _ _ _ h]
    rfl

theorem getManifestStreamFromImage_error_inv (env : Env) (image repo : String)
    (options : List CraneOpt) (e : GoErr)
    (h : getManifestStreamFromImage env image repo options = .error e) :
    isInvalidRefErr e = false := by
  unfold getManifestStreamFromImage at h
  rcases h1 : env.craneManifest image options with e1 | manifest <;> simp only [h1] at h
  · simp only [Except.error.injEq] at h
    subst h; rfl
  · rcases h2 : env.unmarshalJobj manifest with e2 | relObj <;> simp only [h2] at h
    · simp only [Except.error.injEq] at h
      subst h; rfl
    · rcases h3 : NestedString relObj ["mediaType"] with ⟨mt, found, err⟩
      rcases err with _ | eacc
      · simp only [h3] at h
        cases found
        · simp only [Bool.not_false, if_true, Except.error.injEq] at h
          subst h; rfl
        · simp only [Bool.not_true, Bool.false_eq_true, if_false] at h
          by_cases hc : containsSubstr mt "manifest.list" = true
          · rw [if_pos hc] at h
            rcases h4 : getImageDigestFromMultiImage env manifest with e4 | dig
              <;> simp only [h4] at h
            · simp only [Except.error.injEq] at h
              subst h
              exact getImageDigestFromMultiImage_error_inv _ _ _ h4
            · rcases h5 : env.craneManifest (repo ++ "@" ++ dig) options with e5 | m2
                <;> simp only [h5] at h
              · simp only [Except.error.injEq] at h
                subst h; rfl
              · simp at h
          · rw [if_neg hc] at h
            simp at h
      · simp only [h3, Except.error.injEq] at h
        subst h; rfl

theorem getLayersDigestsFromManifestStream_error_inv (env : Env) (stream : String) (e : GoErr)
    (h : getLayersDigestsFromManifestStream env stream = .error e) :
    isInvalidRefErr e = false := by
  unfold getLayersDigestsFromManifestStream at h
  rcases h1 : env.unmarshalManifest stream with e1 | m <;> simp only [h1] at h
  · simp only [Except.error.injEq] at h
    subst h; rfl
  · simp at h

/-- Case analysis of GetLayersDigests: either a failure inherited from a
sub-step, which is never the invalid-reference error; or the
invalid-reference rejection, exactly when the derived repository is
empty; or success, returning the derived repository and the credential
options determined by the resolved auth entry. -/
theorem GetLayersDigests_cases (env : Env) (image : String) :
    (∃ e, GetLayersDigests env image = .error e ∧ isInvalidRefErr e = false)
    ∨ (GetLayersDigests env image = .error (.invalidReference image)
        ∧ repoFromImage image = "")
    ∨ (∃ host auth ds,
        registryFromImageURL env.urlParse image = .ok host
        ∧ getImageRegistryCredentials env host = .ok auth
        ∧ GetLayersDigests env image = .ok (repoFromImage image, ds, authOpts auth)) := by
  rcases h1 : registryFromImageURL env.urlParse image with e1 | host
  · exact Or.inl ⟨e1, by simp [GetLayersDigests, h1], by
      rw [registryFromImageURL_error_inv _ _ _ h1]; rfl⟩
  · rcases h2 : getImageRegistryCredentials env host with e2 | auth
    · exact Or.inl ⟨e2, by simp [GetLayersDigests, h1, h2],
        getImageRegistryCredentials_error_inv _ _ _ h2⟩
    · by_cases hrep : repoFromImage image = ""
      · exact Or.inr (Or.inl ⟨by simp [GetLayersDigests, h1, h2, hrep], hrep⟩)
      · rcases h3 : getManifestStreamFromImage env image (repoFromImage image) (authOpts auth)
            with e3 | stream
        · exact Or.inl ⟨e3, by simp [GetLayersDigests, h1, h2, hrep, h3],
            getManifestStreamFromImage_error_inv _ _ _ _ _ h3⟩
        · rcases h4 : getLayersDigestsFromManifestStream env stream with e4 | ds
          · exact Or.inl ⟨e4, by simp [GetLayersDigests, h1, h2, hrep, h3, h4],
              getLayersDigestsFromManifestStream_error_inv _ _ _ h4⟩
          · exact Or.inr (Or.inr ⟨host, auth, ds, rfl, h2,
              by simp [GetLayersDigests, h1, h2, hrep, h3, h4]⟩)

/-- C5.  Over a readable and decodable pull-secret document, credential
resolution returns the auth entry of a present host key, and fails with
the no-credential error when the host key is absent (never returning a
credential); when a resolved entry has an empty Auth string, the resolver
attaches no credential option to the registry calls. -/
theorem c5_credential_lookup
    (env : Env) (s : Secret) (data : String)
    (auths : List (String × DockerAuth)) (host : String)
    (hsec : env.getSecret pullSecretNamespace pullSecretName = .ok s)
    (hdata : lookupKV s.Data pullSecretFileName = some data)
    (hauths : env.unmarshalAuths data = .ok auths) :
    (∀ a, lookupKV auths host = some a → getImageRegistryCredentials env host = .ok a)
    ∧ (lookupKV auths host = none →
        getImageRegistryCredentials env host = .error (.noAuthForRegistry host)
        ∧ ∀ a, getImageRegistryCredentials env host ≠ .ok a)
    ∧ (∀ image host' a', registryFromImageURL env.urlParse image = .ok host' →
        getImageRegistryCredentials env host' = .ok a' → a'.Auth = "" →
        ∀ repo ds opts, GetLayersDigests env image = .ok (repo, ds, opts) → opts = []) := by
  refine ⟨?_, ?_, ?_⟩
  · intro a ha
    simp [getImageRegistryCredentials, hsec, hdata, hauths, ha]
  · intro hnone
    constructor
    · simp [getImageRegistryCredentials, hsec, hdata, hauths, hnone]
    · intro a hcontra
      simp [getImageRegistryCredentials, hsec, hdata, hauths, hnone] at hcontra
  · intro image host' a' h1 h2 ha repo ds opts h3
    rcases GetLayersDigests_cases env image with ⟨e, he, _⟩ | ⟨he, _⟩ | ⟨h', a'', ds', hh, hc, hok⟩
    · rw [h3] at he; cases he
    · rw [h3] at he; cases he
    · rw [h3] at hok
      have hhost : host' = h' := by
        have hx := h1.symm.trans hh
        injection hx
      subst hhost
      have hauth : a' = a'' := by
        have hx := h2.symm.trans hc
        injection hx
      subst hauth
      simp only [Except.ok.injEq, Prod.mk.injEq] at hok
      rw [hok.2.2]
      simp [authOpts, ha]

/-- C5 witness: the concrete document resolves a present host to its
entry and an absent host to the no-credential error. -/
theorem c5_witness :
    getImageRegistryCredentials envW "reg.io" = .ok { Auth := "abc", Email := "e@x.com" }
    ∧ getImageRegistryCredentials envW "other.io" = .error (.noAuthForRegistry "other.io") := by
  have h1 := c5_credential_lookup envW { Data := [(".dockerconfigjson", "SECW")] } "SECW"
    [("reg.io", { Auth := "abc", Email := "e@x.com" })] "reg.io" rfl rfl rfl
  have h2 := c5_credential_lookup envW { Data := [(".dockerconfigjson", "SECW")] } "SECW"
    [("reg.io", { Auth := "abc", Email := "e@x.com" })] "other.io" rfl rfl rfl
  exact ⟨h1.1 _ rfl, (h2.2.1 rfl).1⟩

/-- C10.  A reference whose only colon is the port separator and which
carries no tag or digest is not rejected: GetLayersDigests never fails
with the invalid-reference error on it, and when it succeeds the derived
repository is the prefix before the first colon — the registry-host
prefix — rather than a rejection. -/
theorem c10_port_colon_repo_derivation
    (env : Env) (image s0 s1 : String) (rest : List String)
    (hat : containsSubstr image "@" = false)
    (hsplit : stringsSplit image ':' = s0 :: s1 :: rest)
    (hs0 : s0 ≠ "") :
    GetLayersDigests env image ≠ .error (.invalidReference image)
    ∧ (∀ repo ds opts, GetLayersDigests env image = .ok (repo, ds, opts) → repo = s0) := by
  have hrepo : repoFromImage image = s0 := by
    unfold repoFromImage
    rw [stringsSplit_no_sep image '@' hat, hsplit]
    simp
  constructor
  · intro hcontra
    rcases GetLayersDigests_cases env image with ⟨e, he, hne⟩ | ⟨_, hemp⟩ | ⟨h', a', ds', _, _, hok⟩
    · rw [hcontra] at he
      cases he
      simp [isInvalidRefErr] at hne
    · rw [hrepo] at hemp
      exact hs0 hemp
    · rw [hcontra] at hok
      cases hok
  · intro repo ds opts h
    rcases GetLayersDigests_cases env image with ⟨e, he, _⟩ | ⟨he, _⟩ | ⟨h', a', ds', _, _, hok⟩
    · rw [h] at he; cases he
    · rw [h] at he; cases he
    · rw [h] at hok
      simp only [Except.ok.injEq, Prod.mk.injEq] at hok
      rw [hok.1, hrepo]

/-- C10 witness: the reference localhost:5000/repo, whose only colon is
the port separator, is not rejected with the invalid-reference error. -/
theorem c10_witness :
    GetLayersDigests envC "localhost:5000/repo"
      ≠ .error (.invalidReference "localhost:5000/repo") :=
  (c10_port_colon_repo_derivation envC "localhost:5000/repo" "localhost" "5000/repo" []
    (by rfl) (by rfl) (by decide)).1

theorem scanTagsForDtk_panics (pre : List Json) (bad : Json) (post : List Json)
    (hpre : ∀ t ∈ pre, ∃ m, t = .obj m ∧ optJsonIsStr (lookupKV m "name") "driver-toolkit" = false)
    (hbad : bad.isObj = false) :
    scanTagsForDtk (pre ++ bad :: post) = .panicked "interface conversion: value is not a map" := by
  induction pre with
  | nil => cases bad <;> simp_all [scanTagsForDtk, Json.isObj]
  | cons x xs ih =>
    obtain ⟨m, rfl, hm⟩ := hpre x (by simp)
    simp only [List.cons_append, scanTagsForDtk, hm, Bool.false_eq_true, if_false]
    exact ih fun y hy => hpre y (by simp [hy])

theorem scanTagsForMoc_panics (pre : List Json) (bad : Json) (post : List Json)
    (hpre : ∀ t ∈ pre, ∃ m, t = .obj m ∧ optJsonIsStr (lookupKV m "name") "machine-os-content" = false)
    (hbad : bad.isObj = false) :
    scanTagsForMoc (pre ++ bad :: post) = .panicked "interface conversion: value is not a map" := by
  induction pre with
  | nil => cases bad <;> simp_all [scanTagsForMoc, Json.isObj]
  | cons x xs ih =>
    obtain ⟨m, rfl, hm⟩ := hpre x (by simp)
    simp only [List.cons_append, scanTagsForMoc, hm, Bool.false_eq_true, if_false]
    exact ih fun y hy => hpre y (by simp [hy])

/-- C9.  The claim asserts that any spec.tags array containing a
non-object element makes the scans panic.  On this concrete
image-references file the tags array holds the driver-toolkit tag
followed by a plain string, yet ReleaseManifests returns the image URL
normally: a non-object element positioned after the matching tag is never
reached, so the claim fails as universally stated. -/
theorem c9_nonobject_after_match_no_panic :
    ReleaseManifests uC layerC = .ok "reg.io/dtk:v1"
    ∧ NestedSlice objC ["spec", "tags"] = ([dtkTagC, .str "oops"], true, none)
    ∧ Json.isObj (.str "oops") = false := by
  refine ⟨by rfl, by rfl, rfl⟩

/-- C9 (amended).  ReleaseManifests and ReleaseImageMachineOSConfig
apply unchecked type assertions to the scanned elements of spec.tags:
whenever the scan reaches a non-object element — every element before it
being an object whose name differs from the searched tag name — the call
panics instead of returning one of the specified projection errors; a
non-object element positioned after the matching tag is never reached. -/
theorem c9_nonobject_tag_panics :
    (∀ u layer obj pre bad post,
      getHeaderFromLayer u layer "release-manifests/image-references" = .ok obj →
      NestedSlice obj ["spec", "tags"] = (pre ++ bad :: post, true, none) →
      (∀ t ∈ pre, ∃ m, t = .obj m ∧ optJsonIsStr (lookupKV m "name") "driver-toolkit" = false) →
      bad.isObj = false →
      ReleaseManifests u layer = .panicked "interface conversion: value is not a map")
    ∧ (∀ u layer obj pre bad post,
      getHeaderFromLayer u layer "release-manifests/image-references" = .ok obj →
      NestedSlice obj ["spec", "tags"] = (pre ++ bad :: post, true, none) →
      (∀ t ∈ pre, ∃ m, t = .obj m ∧ optJsonIsStr (lookupKV m "name") "machine-os-content" = false) →
      bad.isObj = false →
      ReleaseImageMachineOSConfig u layer = .panicked "interface conversion: value is not a map") := by
  constructor
  · intro u layer obj pre bad post hget hslice hpre hbad
    simp only [ReleaseManifests, hget, hslice, Option.isSome_none, Bool.not_true, Bool.or_false,
      Bool.false_eq_true, if_false, Bool.not_false, Bool.or_self]
    exact scanTagsForDtk_panics pre bad post hpre hbad
  · intro u layer obj pre bad post hget hslice hpre hbad
    simp only [ReleaseImageMachineOSConfig, hget, hslice, Option.isSome_none, Bool.not_true,
      Bool.or_false, Bool.false_eq_true, if_false, Bool.not_false, Bool.or_self]
    exact scanTagsForMoc_panics pre bad post hpre hbad

/-- C9 witness: a tags array whose first element is a plain string makes
both scans panic. -/
theorem c9_witness :
    ReleaseManifests uD layerD = .panicked "interface conversion: value is not a map"
    ∧ ReleaseImageMachineOSConfig uD layerD
        = .panicked "interface conversion: value is not a map" :=
  ⟨c9_nonobject_tag_panics.1 uD layerD objD [] (.str "oops") [] rfl rfl (by simp) rfl,
   c9_nonobject_tag_panics.2 uD layerD objD [] (.str "oops") [] rfl rfl (by simp) rfl⟩

end Registry
